import Mathlib

/-!
Verification of the credit-card payment timing simulator
(`credit_card_sim_app.py`).

The computational core consists of two pure simulation functions,
`simulate_payments_staggered` and `simulate_payments_lump_sum`.  Each runs a
nested loop over `months` months of `days_per_month` days; on trigger days it
debits `payment_amount` from the running balance, clamping a negative result to
zero, and records the balance after each day.  Both return the daily balance
series together with the average daily balance (arithmetic mean of the series)
and the approximate annual interest (mean times the annual rate).

Balances and amounts are modelled as rationals (the Python code uses floats,
but all claims are about the exact arithmetic structure); days of the month are
integers, as in the source.
-/

namespace CreditCardSim

/-- The body of the inner loop of `simulate_payments_staggered` for a single
day: if `day` is in `payment_days` the balance is reduced by `payment_amount`
and clamped at zero, otherwise it is unchanged. -/
def staggeredStep (payment_days : List ℤ) (payment_amount : ℚ)
    (day : ℤ) (bal : ℚ) : ℚ :=
  if day ∈ payment_days then
    let b := bal - payment_amount
    if b < 0 then 0 else b
  else bal

/-- The body of the inner loop of `simulate_payments_lump_sum` for a single
day: if `day` equals `payment_day` the balance is reduced by `payment_amount`
and clamped at zero, otherwise it is unchanged. -/
def lumpStep (payment_day : ℤ) (payment_amount : ℚ)
    (day : ℤ) (bal : ℚ) : ℚ :=
  if day = payment_day then
    let b := bal - payment_amount
    if b < 0 then 0 else b
  else bal

/-- Run a per-day update over a list of day labels, threading the balance and
recording the balance after every day.  Returns the final balance and the
recorded series.  This is the inner `for day in range(1, days_per_month + 1)`
loop, abstracted over the day list and the per-day body. -/
def runDays (step : ℤ → ℚ → ℚ) : List ℤ → ℚ → ℚ × List ℚ
  | [], bal => (bal, [])
  | d :: ds, bal =>
    let b := step d bal
    let r := runDays step ds b
    (r.1, b :: r.2)

/-- The day labels of one month: `1, 2, ..., days_per_month`, chronological,
as produced by `range(1, days_per_month + 1)`. -/
def daysOfMonth (days_per_month : ℕ) : List ℤ :=
  (List.range days_per_month).map (fun (k : ℕ) => (k : ℤ) + 1)

/-- The outer `for month in range(months)` loop: run `runDays` over each
month's days in turn, threading the balance and concatenating the recorded
series. -/
def runMonths (step : ℤ → ℚ → ℚ) (days_per_month : ℕ) : ℕ → ℚ → ℚ × List ℚ
  | 0, bal => (bal, [])
  | m + 1, bal =>
    let r := runDays step (daysOfMonth days_per_month) bal
    let rest := runMonths step days_per_month m r.1
    (rest.1, r.2 ++ rest.2)

/-- The concatenation of all day labels of `m` consecutive months. -/
def monthsDays (days_per_month m : ℕ) : List ℤ :=
  (List.replicate m (daysOfMonth days_per_month)).flatten

/-- The triple returned by each simulator: the daily balance series, the
approximate annual interest earned, and the average daily balance. -/
structure SimResult where
  daily_balances : List ℚ
  annual_interest_earned : ℚ
  average_daily_balance : ℚ
  deriving DecidableEq

/-- `numpy.mean` on a list of rationals: sum divided by length. -/
def npMean (xs : List ℚ) : ℚ :=
  xs.sum / (xs.length : ℚ)

/-- `simulate_payments_staggered` from the source: simulate the daily balance
when payments of `payment_amount` are made on each day of `payment_days` every
month, then reduce the series to its mean and the approximate annual
interest. -/
def simulate_payments_staggered (initial_balance annual_interest_rate : ℚ)
    (months days_per_month : ℕ) (payment_days : List ℤ)
    (payment_amount : ℚ) : SimResult :=
  let daily_balances :=
    (runMonths (staggeredStep payment_days payment_amount)
      days_per_month months initial_balance).2
  let avg_daily_balance := npMean daily_balances
  ⟨daily_balances, avg_daily_balance * annual_interest_rate, avg_daily_balance⟩

/-- `simulate_payments_lump_sum` from the source: simulate the daily balance
when a single payment of `payment_amount` is made on `payment_day` every
month, then reduce the series to its mean and the approximate annual
interest. -/
def simulate_payments_lump_sum (initial_balance annual_interest_rate : ℚ)
    (months days_per_month : ℕ) (payment_day : ℤ)
    (payment_amount : ℚ) : SimResult :=
  let daily_balances :=
    (runMonths (lumpStep payment_day payment_amount)
      days_per_month months initial_balance).2
  let avg_daily_balance := npMean daily_balances
  ⟨daily_balances, avg_daily_balance * annual_interest_rate, avg_daily_balance⟩

theorem runDays_snd_length (step : ℤ → ℚ → ℚ) :
    ∀ (ds : List ℤ) (bal : ℚ), ((runDays step ds bal).2).length = ds.length := by
  intro ds
  induction ds with
  | nil => intro bal; simp [runDays]
  | cons d ds ih => intro bal; simp [runDays, ih]

theorem daysOfMonth_length (days_per_month : ℕ) :
    (daysOfMonth days_per_month).length = days_per_month := by
  rw [daysOfMonth, List.length_map, List.length_range]

theorem runMonths_snd_length (step : ℤ → ℚ → ℚ) (days_per_month : ℕ) :
    ∀ (m : ℕ) (bal : ℚ),
      ((runMonths step days_per_month m bal).2).length = m * days_per_month := by
  intro m
  induction m with
  | zero => intro bal; simp [runMonths]
  | succ m ih =>
    intro bal
    simp [runMonths, runDays_snd_length, daysOfMonth_length, ih, Nat.succ_mul]
    ring

theorem mem_daysOfMonth {days_per_month : ℕ} {d : ℤ}
    (hd : d ∈ daysOfMonth days_per_month) : 1 ≤ d ∧ d ≤ (days_per_month : ℤ) := by
  simp only [daysOfMonth, List.mem_map, List.mem_range] at hd
  obtain ⟨k, hk, rfl⟩ := hd
  omega

theorem runDays_id (step : ℤ → ℚ → ℚ) :
    ∀ (ds : List ℤ) (bal : ℚ), (∀ d ∈ ds, ∀ b, step d b = b) →
      (runDays step ds bal).1 = bal ∧ ∀ x ∈ (runDays step ds bal).2, x = bal := by
  intro ds
  induction ds with
  | nil => intro bal _; simp [runDays]
  | cons d ds ih =>
    intro bal h
    have hd : step d bal = bal := h d (by simp) bal
    have ih' := ih bal (fun e he b => h e (by simp [he]) b)
    simp only [runDays, hd]
    refine ⟨ih'.1, ?_⟩
    intro x hx
    rcases List.mem_cons.mp hx with rfl | hx
    · rfl
    · exact ih'.2 x hx

theorem runMonths_id (step : ℤ → ℚ → ℚ) (days_per_month : ℕ)
    (h : ∀ d ∈ daysOfMonth days_per_month, ∀ b, step d b = b) :
    ∀ (m : ℕ) (bal : ℚ),
      (runMonths step days_per_month m bal).1 = bal ∧
      ∀ x ∈ (runMonths step days_per_month m bal).2, x = bal := by
  intro m
  induction m with
  | zero => intro bal; simp [runMonths]
  | succ m ih =>
    intro bal
    have hr := runDays_id step (daysOfMonth days_per_month) bal h
    simp only [runMonths, hr.1]
    have ih' := ih bal
    refine ⟨ih'.1, ?_⟩
    intro x hx
    rcases List.mem_append.mp hx with hx | hx
    · exact hr.2 x hx
    · exact ih'.2 x hx

theorem staggeredStep_nonneg (payment_days : List ℤ) (payment_amount : ℚ)
    (day : ℤ) (bal : ℚ) (h : 0 ≤ bal) :
    0 ≤ staggeredStep payment_days payment_amount day bal := by
  unfold staggeredStep
  split_ifs with h1
  · dsimp only
    split_ifs with h2
    · exact le_refl (0 : ℚ)
    · linarith
  · exact h

theorem lumpStep_nonneg (payment_day : ℤ) (payment_amount : ℚ)
    (day : ℤ) (bal : ℚ) (h : 0 ≤ bal) :
    0 ≤ lumpStep payment_day payment_amount day bal := by
  unfold lumpStep
  split_ifs with h1
  · dsimp only
    split_ifs with h2
    · exact le_refl (0 : ℚ)
    · linarith
  · exact h

theorem runDays_nonneg (step : ℤ → ℚ → ℚ)
    (hstep : ∀ d b, 0 ≤ b → 0 ≤ step d b) :
    ∀ (ds : List ℤ) (bal : ℚ), 0 ≤ bal →
      0 ≤ (runDays step ds bal).1 ∧ ∀ x ∈ (runDays step ds bal).2, 0 ≤ x := by
  intro ds
  induction ds with
  | nil => intro bal h; simpa [runDays] using h
  | cons d ds ih =>
    intro bal h
    have hb : 0 ≤ step d bal := hstep d bal h
    have ih' := ih (step d bal) hb
    simp only [runDays]
    refine ⟨ih'.1, ?_⟩
    intro x hx
    rcases List.mem_cons.mp hx with rfl | hx
    · exact hb
    · exact ih'.2 x hx

theorem runMonths_nonneg (step : ℤ → ℚ → ℚ) (days_per_month : ℕ)
    (hstep : ∀ d b, 0 ≤ b → 0 ≤ step d b) :
    ∀ (m : ℕ) (bal : ℚ), 0 ≤ bal →
      0 ≤ (runMonths step days_per_month m bal).1 ∧
      ∀ x ∈ (runMonths step days_per_month m bal).2, 0 ≤ x := by
  intro m
  induction m with
  | zero => intro bal h; simpa [runMonths] using h
  | succ m ih =>
    intro bal h
    have hr := runDays_nonneg step hstep (daysOfMonth days_per_month) bal h
    have ih' := ih _ hr.1
    simp only [runMonths]
    refine ⟨ih'.1, ?_⟩
    intro x hx
    rcases List.mem_append.mp hx with hx | hx
    · exact hr.2 x hx
    · exact ih'.2 x hx

theorem getD_nonneg_of_forall_mem (l : List ℚ) (h : ∀ x ∈ l, 0 ≤ x) (i : ℕ) :
    0 ≤ l.getD i 0 := by
  rcases Nat.lt_or_ge i l.length with hi | hi
  · rw [List.getD_eq_getElem _ _ hi]
    exact h _ (List.getElem_mem hi)
  · rw [List.getD_eq_default _ _ hi]

theorem getD_eq_of_forall_mem (l : List ℚ) (c : ℚ) (h : ∀ x ∈ l, x = c)
    (i : ℕ) (hi : i < l.length) : l.getD i 0 = c := by
  rw [List.getD_eq_getElem _ _ hi]
  exact h _ (List.getElem_mem hi)

theorem runDays_append (step : ℤ → ℚ → ℚ) :
    ∀ (l1 l2 : List ℤ) (bal : ℚ),
      runDays step (l1 ++ l2) bal =
        ((runDays step l2 (runDays step l1 bal).1).1,
         (runDays step l1 bal).2 ++ (runDays step l2 (runDays step l1 bal).1).2) := by
  intro l1
  induction l1 with
  | nil => intro l2 bal; simp [runDays]
  | cons d l1 ih => intro l2 bal; simp [runDays, ih]

theorem monthsDays_zero (days_per_month : ℕ) : monthsDays days_per_month 0 = [] := by
  simp [monthsDays]

theorem monthsDays_succ (days_per_month m : ℕ) :
    monthsDays days_per_month (m + 1) =
      daysOfMonth days_per_month ++ monthsDays days_per_month m := by
  simp [monthsDays, List.replicate_succ]

theorem monthsDays_length (days_per_month m : ℕ) :
    (monthsDays days_per_month m).length = m * days_per_month := by
  induction m with
  | zero => simp [monthsDays_zero]
  | succ m ih => simp [monthsDays_succ, daysOfMonth_length, ih, Nat.succ_mul]; ring

theorem runMonths_eq_runDays (step : ℤ → ℚ → ℚ) (days_per_month : ℕ) :
    ∀ (m : ℕ) (bal : ℚ),
      runMonths step days_per_month m bal =
        runDays step (monthsDays days_per_month m) bal := by
  intro m
  induction m with
  | zero => intro bal; simp [runMonths, monthsDays_zero, runDays]
  | succ m ih =>
    intro bal
    rw [monthsDays_succ, runDays_append]
    simp only [runMonths, ih]

theorem runDays_getD (step : ℤ → ℚ → ℚ) :
    ∀ (ds : List ℤ) (bal : ℚ) (i : ℕ), i < ds.length →
      (runDays step ds bal).2.getD i 0 =
        step (ds.getD i 0)
          (if i = 0 then bal else (runDays step ds bal).2.getD (i - 1) 0) := by
  intro ds
  induction ds with
  | nil => intro bal i h; simp at h
  | cons d ds ih =>
    intro bal i h
    cases i with
    | zero => simp [runDays]
    | succ n =>
      have hn : n < ds.length := by simpa using h
      have hrec := ih (step d bal) n hn
      simp only [runDays, List.getD_cons_succ]
      rw [hrec]
      cases n with
      | zero => simp
      | succ m => simp

theorem staggeredStep_zero (payment_days : List ℤ) (payment_amount : ℚ)
    (day : ℤ) (h : 0 ≤ payment_amount) :
    staggeredStep payment_days payment_amount day 0 = 0 := by
  unfold staggeredStep
  split_ifs with h1
  · dsimp only
    split_ifs with h2
    · rfl
    · linarith
  · rfl

theorem lumpStep_zero (payment_day : ℤ) (payment_amount : ℚ)
    (day : ℤ) (h : 0 ≤ payment_amount) :
    lumpStep payment_day payment_amount day 0 = 0 := by
  unfold lumpStep
  split_ifs with h1
  · dsimp only
    split_ifs with h2
    · rfl
    · linarith
  · rfl

theorem staggeredStep_clamp (payment_days : List ℤ) (payment_amount : ℚ)
    (day : ℤ) (bal : ℚ) (hmem : day ∈ payment_days) (hlt : bal < payment_amount) :
    staggeredStep payment_days payment_amount day bal = 0 := by
  unfold staggeredStep
  rw [if_pos hmem]
  dsimp only
  rw [if_pos (by linarith : bal - payment_amount < 0)]

theorem lumpStep_clamp (payment_day : ℤ) (payment_amount : ℚ)
    (day : ℤ) (bal : ℚ) (hmem : day = payment_day) (hlt : bal < payment_amount) :
    lumpStep payment_day payment_amount day bal = 0 := by
  unfold lumpStep
  rw [if_pos hmem]
  dsimp only
  rw [if_pos (by linarith : bal - payment_amount < 0)]

theorem runDays_zero (step : ℤ → ℚ → ℚ) (h0 : ∀ d, step d 0 = 0) :
    ∀ (ds : List ℤ), (runDays step ds 0).1 = 0 ∧ ∀ x ∈ (runDays step ds 0).2, x = 0 := by
  intro ds
  induction ds with
  | nil => simp [runDays]
  | cons d ds ih =>
    simp only [runDays, h0 d]
    refine ⟨ih.1, ?_⟩
    intro x hx
    rcases List.mem_cons.mp hx with rfl | hx
    · rfl
    · exact ih.2 x hx

theorem runDays_zero_from (step : ℤ → ℚ → ℚ) (h0 : ∀ d, step d 0 = 0) :
    ∀ (ds : List ℤ) (bal : ℚ) (i j : ℕ), i ≤ j → j < ds.length →
      (runDays step ds bal).2.getD i 0 = 0 → (runDays step ds bal).2.getD j 0 = 0 := by
  intro ds
  induction ds with
  | nil => intro bal i j _ hj _; simp at hj
  | cons d ds ih =>
    intro bal i j hij hj hz
    cases i with
    | zero =>
      cases j with
      | zero => exact hz
      | succ n =>
        have hb : step d bal = 0 := by simpa [runDays] using hz
        have hn : n < ds.length := by simpa using hj
        simp only [runDays, List.getD_cons_succ, hb]
        have hall := (runDays_zero step h0 ds).2
        exact getD_eq_of_forall_mem _ 0 hall n (by rwa [runDays_snd_length])
    | succ m =>
      cases j with
      | zero => omega
      | succ n =>
        have hmn : m ≤ n := by omega
        have hn : n < ds.length := by simpa using hj
        have hz' : (runDays step ds (step d bal)).2.getD m 0 = 0 := by
          simpa [runDays, List.getD_cons_succ] using hz
        simp only [runDays, List.getD_cons_succ]
        exact ih (step d bal) m n hmn hn hz'

/-- Claim C1: for every parameter set (months and days-per-month are natural
numbers, so the nonnegativity side conditions hold automatically) and any
schedule, the balance series returned by each simulator has length exactly
months times days-per-month. -/
theorem series_length_eq (initial_balance annual_interest_rate : ℚ)
    (months days_per_month : ℕ) (payment_days : List ℤ) (payment_day : ℤ)
    (amt₁ amt₂ : ℚ) :
    (simulate_payments_staggered initial_balance annual_interest_rate
        months days_per_month payment_days amt₁).daily_balances.length =
      months * days_per_month ∧
    (simulate_payments_lump_sum initial_balance annual_interest_rate
        months days_per_month payment_day amt₂).daily_balances.length =
      months * days_per_month := by
  constructor
  · simp [simulate_payments_staggered, runMonths_snd_length]
  · simp [simulate_payments_lump_sum, runMonths_snd_length]

/-- Claim C2: for a nonnegative initial balance every entry of the returned
balance series of either simulator is nonnegative: a debit that would go
negative is clamped to zero before being recorded, and non-payment days carry
the previous balance forward. -/
theorem series_nonneg (initial_balance annual_interest_rate : ℚ)
    (months days_per_month : ℕ) (payment_days : List ℤ) (payment_day : ℤ)
    (amt₁ amt₂ : ℚ) (h : 0 ≤ initial_balance) :
    (∀ i, 0 ≤ (simulate_payments_staggered initial_balance annual_interest_rate
        months days_per_month payment_days amt₁).daily_balances.getD i 0) ∧
    (∀ i, 0 ≤ (simulate_payments_lump_sum initial_balance annual_interest_rate
        months days_per_month payment_day amt₂).daily_balances.getD i 0) := by
  constructor
  · intro i
    apply getD_nonneg_of_forall_mem
    exact (runMonths_nonneg _ days_per_month
      (fun d b hb => staggeredStep_nonneg _ _ d b hb) months initial_balance h).2
  · intro i
    apply getD_nonneg_of_forall_mem
    exact (runMonths_nonneg _ days_per_month
      (fun d b hb => lumpStep_nonneg _ _ d b hb) months initial_balance h).2

/-- Witness for C2: on a concrete run where the balance is driven to zero, the
recorded entries are still nonnegative. -/
theorem series_nonneg_witness :
    0 ≤ (simulate_payments_staggered 5 0 1 3 [2] 10).daily_balances.getD 1 0 ∧
    0 ≤ (simulate_payments_lump_sum 5 0 1 3 2 10).daily_balances.getD 1 0 :=
  ⟨(series_nonneg 5 0 1 3 [2] 2 10 10 (by norm_num)).1 1,
   (series_nonneg 5 0 1 3 [2] 2 10 10 (by norm_num)).2 1⟩

/-- Claim C3: for each simulator (on a nonempty series) the returned average
daily balance is the sum of the series divided by its length, and the returned
annual interest is the average daily balance times the annual rate. -/
theorem mean_reduction (initial_balance annual_interest_rate : ℚ)
    (months days_per_month : ℕ) (payment_days : List ℤ) (payment_day : ℤ)
    (amt₁ amt₂ : ℚ)
    (h₁ : (simulate_payments_staggered initial_balance annual_interest_rate
        months days_per_month payment_days amt₁).daily_balances ≠ [])
    (h₂ : (simulate_payments_lump_sum initial_balance annual_interest_rate
        months days_per_month payment_day amt₂).daily_balances ≠ []) :
    ((simulate_payments_staggered initial_balance annual_interest_rate
        months days_per_month payment_days amt₁).average_daily_balance =
      (simulate_payments_staggered initial_balance annual_interest_rate
        months days_per_month payment_days amt₁).daily_balances.sum /
      ((simulate_payments_staggered initial_balance annual_interest_rate
        months days_per_month payment_days amt₁).daily_balances.length : ℚ) ∧
     (simulate_payments_staggered initial_balance annual_interest_rate
        months days_per_month payment_days amt₁).annual_interest_earned =
      (simulate_payments_staggered initial_balance annual_interest_rate
        months days_per_month payment_days amt₁).average_daily_balance *
        annual_interest_rate) ∧
    ((simulate_payments_lump_sum initial_balance annual_interest_rate
        months days_per_month payment_day amt₂).average_daily_balance =
      (simulate_payments_lump_sum initial_balance annual_interest_rate
        months days_per_month payment_day amt₂).daily_balances.sum /
      ((simulate_payments_lump_sum initial_balance annual_interest_rate
        months days_per_month payment_day amt₂).daily_balances.length : ℚ) ∧
     (simulate_payments_lump_sum initial_balance annual_interest_rate
        months days_per_month payment_day amt₂).annual_interest_earned =
      (simulate_payments_lump_sum initial_balance annual_interest_rate
        months days_per_month payment_day amt₂).average_daily_balance *
        annual_interest_rate) :=
  ⟨⟨rfl, rfl⟩, ⟨rfl, rfl⟩⟩

/-- Witness for C3 at a concrete nonempty run. -/
theorem mean_reduction_witness :
    ((simulate_payments_staggered 5 0 1 3 [2] 10).average_daily_balance =
      (simulate_payments_staggered 5 0 1 3 [2] 10).daily_balances.sum /
      ((simulate_payments_staggered 5 0 1 3 [2] 10).daily_balances.length : ℚ) ∧
     (simulate_payments_staggered 5 0 1 3 [2] 10).annual_interest_earned =
      (simulate_payments_staggered 5 0 1 3 [2] 10).average_daily_balance * 0) ∧
    ((simulate_payments_lump_sum 5 0 1 3 2 10).average_daily_balance =
      (simulate_payments_lump_sum 5 0 1 3 2 10).daily_balances.sum /
      ((simulate_payments_lump_sum 5 0 1 3 2 10).daily_balances.length : ℚ) ∧
     (simulate_payments_lump_sum 5 0 1 3 2 10).annual_interest_earned =
      (simulate_payments_lump_sum 5 0 1 3 2 10).average_daily_balance * 0) := by
  have hl₁ : (simulate_payments_staggered 5 0 1 3 [2] 10).daily_balances.length = 1 * 3 := by
    simp [simulate_payments_staggered, runMonths_snd_length]
  have hl₂ : (simulate_payments_lump_sum 5 0 1 3 2 10).daily_balances.length = 1 * 3 := by
    simp [simulate_payments_lump_sum, runMonths_snd_length]
  refine mean_reduction 5 0 1 3 [2] 2 10 10 ?_ ?_
  · intro heq
    rw [heq] at hl₁
    simp at hl₁
  · intro heq
    rw [heq] at hl₂
    simp at hl₂

/-- Claim C4: with at least one month and one day per month, an empty
staggered schedule, or a lump-sum payment day outside the range of days of the
month, produces a series that is constantly the initial balance. -/
theorem no_trigger_constant (initial_balance annual_interest_rate : ℚ)
    (months days_per_month : ℕ) (payment_day : ℤ) (amt₁ amt₂ : ℚ)
    (hm : 1 ≤ months) (hd : 1 ≤ days_per_month) :
    (∀ i, i < (simulate_payments_staggered initial_balance annual_interest_rate
        months days_per_month [] amt₁).daily_balances.length →
      (simulate_payments_staggered initial_balance annual_interest_rate
        months days_per_month [] amt₁).daily_balances.getD i 0 = initial_balance) ∧
    (payment_day < 1 ∨ (days_per_month : ℤ) < payment_day →
      ∀ i, i < (simulate_payments_lump_sum initial_balance annual_interest_rate
          months days_per_month payment_day amt₂).daily_balances.length →
        (simulate_payments_lump_sum initial_balance annual_interest_rate
          months days_per_month payment_day amt₂).daily_balances.getD i 0 =
          initial_balance) := by
  constructor
  · intro i hi
    apply getD_eq_of_forall_mem _ _ _ i hi
    exact (runMonths_id _ days_per_month
      (fun d _ b => by simp [staggeredStep]) months initial_balance).2
  · intro hout i hi
    apply getD_eq_of_forall_mem _ _ _ i hi
    refine (runMonths_id _ days_per_month (fun d hdm b => ?_) months initial_balance).2
    have hrange := mem_daysOfMonth hdm
    have hne : d ≠ payment_day := by
      rcases hout with hout | hout <;> omega
    simp [lumpStep, hne]

/-- Witness for C4 on a concrete run: one month of one day, empty staggered
schedule and out-of-range lump-sum day. -/
theorem no_trigger_constant_witness :
    (simulate_payments_staggered 7 0 1 1 [] 3).daily_balances.getD 0 0 = 7 ∧
    (simulate_payments_lump_sum 7 0 1 1 5 3).daily_balances.getD 0 0 = 7 := by
  have h := no_trigger_constant 7 0 1 1 5 3 3 (by norm_num) (by norm_num)
  constructor
  · refine h.1 0 ?_
    simp [simulate_payments_staggered, runMonths_snd_length]
  · refine h.2 (by norm_num) 0 ?_
    simp [simulate_payments_lump_sum, runMonths_snd_length]

/-- Claim C5: the lump-sum simulator with payment day d is exactly the
staggered simulator with the singleton schedule containing d: same series,
same average daily balance, same annual interest. -/
theorem lump_sum_refines_staggered (initial_balance annual_interest_rate : ℚ)
    (months days_per_month : ℕ) (payment_day : ℤ) (payment_amount : ℚ) :
    simulate_payments_lump_sum initial_balance annual_interest_rate
        months days_per_month payment_day payment_amount =
      simulate_payments_staggered initial_balance annual_interest_rate
        months days_per_month [payment_day] payment_amount := by
  have hstep : lumpStep payment_day payment_amount =
      staggeredStep [payment_day] payment_amount := by
    funext day bal
    simp [lumpStep, staggeredStep, List.mem_singleton]
  simp [simulate_payments_lump_sum, simulate_payments_staggered, hstep]

/-- Claim C9: each simulator is deterministic: calls with identical arguments
return identical results (series, average daily balance and annual
interest). -/
theorem simulators_deterministic (i₁ i₂ r₁ r₂ : ℚ) (m₁ m₂ dp₁ dp₂ : ℕ)
    (pd₁ pd₂ : List ℤ) (pl₁ pl₂ : ℤ) (a₁ a₂ b₁ b₂ : ℚ)
    (hi : i₁ = i₂) (hr : r₁ = r₂) (hm : m₁ = m₂) (hdp : dp₁ = dp₂)
    (hpd : pd₁ = pd₂) (hpl : pl₁ = pl₂) (ha : a₁ = a₂) (hb : b₁ = b₂) :
    simulate_payments_staggered i₁ r₁ m₁ dp₁ pd₁ a₁ =
      simulate_payments_staggered i₂ r₂ m₂ dp₂ pd₂ a₂ ∧
    simulate_payments_lump_sum i₁ r₁ m₁ dp₁ pl₁ b₁ =
      simulate_payments_lump_sum i₂ r₂ m₂ dp₂ pl₂ b₂ := by
  subst hi hr hm hdp hpd hpl ha hb
  exact ⟨rfl, rfl⟩

/-- Witness for C9 at concrete identical arguments. -/
theorem simulators_deterministic_witness :
    simulate_payments_staggered 5 0 1 3 [2] 10 =
      simulate_payments_staggered 5 0 1 3 [2] 10 ∧
    simulate_payments_lump_sum 5 0 1 3 2 10 =
      simulate_payments_lump_sum 5 0 1 3 2 10 :=
  simulators_deterministic 5 5 0 0 1 1 3 3 [2] [2] 2 2 10 10 10 10
    rfl rfl rfl rfl rfl rfl rfl rfl

/-- Claim C10: duplicate entries in the staggered schedule have no effect: the
trigger is a membership test, so the result equals that of the deduplicated
schedule and a repeated day debits at most once per month. -/
theorem staggered_dedup_invariant (initial_balance annual_interest_rate : ℚ)
    (months days_per_month : ℕ) (payment_days : List ℤ) (payment_amount : ℚ) :
    simulate_payments_staggered initial_balance annual_interest_rate
        months days_per_month payment_days payment_amount =
      simulate_payments_staggered initial_balance annual_interest_rate
        months days_per_month payment_days.dedup payment_amount := by
  have hstep : staggeredStep payment_days payment_amount =
      staggeredStep payment_days.dedup payment_amount := by
    funext day bal
    simp [staggeredStep, List.mem_dedup]
  simp [simulate_payments_staggered, hstep]

set_option maxRecDepth 10000

theorem stagMonth_30000 :
    runDays (staggeredStep [7, 14, 21, 28] 1000) (daysOfMonth 30) 30000 =
      (26000, [30000, 30000, 30000, 30000, 30000, 30000, 29000, 29000, 29000, 29000, 29000, 29000, 29000, 28000, 28000, 28000, 28000, 28000, 28000, 28000, 27000, 27000, 27000, 27000, 27000, 27000, 27000, 26000, 26000, 26000]) := by
  norm_num [runDays, daysOfMonth, staggeredStep, List.range_succ]

theorem stagMonth_26000 :
    runDays (staggeredStep [7, 14, 21, 28] 1000) (daysOfMonth 30) 26000 =
      (22000, [26000, 26000, 26000, 26000, 26000, 26000, 25000, 25000, 25000, 25000, 25000, 25000, 25000, 24000, 24000, 24000, 24000, 24000, 24000, 24000, 23000, 23000, 23000, 23000, 23000, 23000, 23000, 22000, 22000, 22000]) := by
  norm_num [runDays, daysOfMonth, staggeredStep, List.range_succ]

theorem stagMonth_22000 :
    runDays (staggeredStep [7, 14, 21, 28] 1000) (daysOfMonth 30) 22000 =
      (18000, [22000, 22000, 22000, 22000, 22000, 22000, 21000, 21000, 21000, 21000, 21000, 21000, 21000, 20000, 20000, 20000, 20000, 20000, 20000, 20000, 19000, 19000, 19000, 19000, 19000, 19000, 19000, 18000, 18000, 18000]) := by
  norm_num [runDays, daysOfMonth, staggeredStep, List.range_succ]

theorem stagMonth_18000 :
    runDays (staggeredStep [7, 14, 21, 28] 1000) (daysOfMonth 30) 18000 =
      (14000, [18000, 18000, 18000, 18000, 18000, 18000, 17000, 17000, 17000, 17000, 17000, 17000, 17000, 16000, 16000, 16000, 16000, 16000, 16000, 16000, 15000, 15000, 15000, 15000, 15000, 15000, 15000, 14000, 14000, 14000]) := by
  norm_num [runDays, daysOfMonth, staggeredStep, List.range_succ]

theorem stagMonth_14000 :
    runDays (staggeredStep [7, 14, 21, 28] 1000) (daysOfMonth 30) 14000 =
      (10000, [14000, 14000, 14000, 14000, 14000, 14000, 13000, 13000, 13000, 13000, 13000, 13000, 13000, 12000, 12000, 12000, 12000, 12000, 12000, 12000, 11000, 11000, 11000, 11000, 11000, 11000, 11000, 10000, 10000, 10000]) := by
  norm_num [runDays, daysOfMonth, staggeredStep, List.range_succ]

theorem stagMonth_10000 :
    runDays (staggeredStep [7, 14, 21, 28] 1000) (daysOfMonth 30) 10000 =
      (6000, [10000, 10000, 10000, 10000, 10000, 10000, 9000, 9000, 9000, 9000, 9000, 9000, 9000, 8000, 8000, 8000, 8000, 8000, 8000, 8000, 7000, 7000, 7000, 7000, 7000, 7000, 7000, 6000, 6000, 6000]) := by
  norm_num [runDays, daysOfMonth, staggeredStep, List.range_succ]

theorem stagMonth_6000 :
    runDays (staggeredStep [7, 14, 21, 28] 1000) (daysOfMonth 30) 6000 =
      (2000, [6000, 6000, 6000, 6000, 6000, 6000, 5000, 5000, 5000, 5000, 5000, 5000, 5000, 4000, 4000, 4000, 4000, 4000, 4000, 4000, 3000, 3000, 3000, 3000, 3000, 3000, 3000, 2000, 2000, 2000]) := by
  norm_num [runDays, daysOfMonth, staggeredStep, List.range_succ]

theorem stagMonth_2000 :
    runDays (staggeredStep [7, 14, 21, 28] 1000) (daysOfMonth 30) 2000 =
      (0, [2000, 2000, 2000, 2000, 2000, 2000, 1000, 1000, 1000, 1000, 1000, 1000, 1000, 0, 0, 0, 0, 0, 0, 0, 0, 0, 0, 0, 0, 0, 0, 0, 0, 0]) := by
  norm_num [runDays, daysOfMonth, staggeredStep, List.range_succ]

theorem stagMonth_0 :
    runDays (staggeredStep [7, 14, 21, 28] 1000) (daysOfMonth 30) 0 =
      (0, [0, 0, 0, 0, 0, 0, 0, 0, 0, 0, 0, 0, 0, 0, 0, 0, 0, 0, 0, 0, 0, 0, 0, 0, 0, 0, 0, 0, 0, 0]) := by
  norm_num [runDays, daysOfMonth, staggeredStep, List.range_succ]

theorem lumpMonth_30000 :
    runDays (lumpStep 28 4000) (daysOfMonth 30) 30000 =
      (26000, [30000, 30000, 30000, 30000, 30000, 30000, 30000, 30000, 30000, 30000, 30000, 30000, 30000, 30000, 30000, 30000, 30000, 30000, 30000, 30000, 30000, 30000, 30000, 30000, 30000, 30000, 30000, 26000, 26000, 26000]) := by
  norm_num [runDays, daysOfMonth, lumpStep, List.range_succ]

theorem lumpMonth_26000 :
    runDays (lumpStep 28 4000) (daysOfMonth 30) 26000 =
      (22000, [26000, 26000, 26000, 26000, 26000, 26000, 26000, 26000, 26000, 26000, 26000, 26000, 26000, 26000, 26000, 26000, 26000, 26000, 26000, 26000, 26000, 26000, 26000, 26000, 26000, 26000, 26000, 22000, 22000, 22000]) := by
  norm_num [runDays, daysOfMonth, lumpStep, List.range_succ]

theorem lumpMonth_22000 :
    runDays (lumpStep 28 4000) (daysOfMonth 30) 22000 =
      (18000, [22000, 22000, 22000, 22000, 22000, 22000, 22000, 22000, 22000, 22000, 22000, 22000, 22000, 22000, 22000, 22000, 22000, 22000, 22000, 22000, 22000, 22000, 22000, 22000, 22000, 22000, 22000, 18000, 18000, 18000]) := by
  norm_num [runDays, daysOfMonth, lumpStep, List.range_succ]

theorem lumpMonth_18000 :
    runDays (lumpStep 28 4000) (daysOfMonth 30) 18000 =
      (14000, [18000, 18000, 18000, 18000, 18000, 18000, 18000, 18000, 18000, 18000, 18000, 18000, 18000, 18000, 18000, 18000, 18000, 18000, 18000, 18000, 18000, 18000, 18000, 18000, 18000, 18000, 18000, 14000, 14000, 14000]) := by
  norm_num [runDays, daysOfMonth, lumpStep, List.range_succ]

theorem lumpMonth_14000 :
    runDays (lumpStep 28 4000) (daysOfMonth 30) 14000 =
      (10000, [14000, 14000, 14000, 14000, 14000, 14000, 14000, 14000, 14000, 14000, 14000, 14000, 14000, 14000, 14000, 14000, 14000, 14000, 14000, 14000, 14000, 14000, 14000, 14000, 14000, 14000, 14000, 10000, 10000, 10000]) := by
  norm_num [runDays, daysOfMonth, lumpStep, List.range_succ]

theorem lumpMonth_10000 :
    runDays (lumpStep 28 4000) (daysOfMonth 30) 10000 =
      (6000, [10000, 10000, 10000, 10000, 10000, 10000, 10000, 10000, 10000, 10000, 10000, 10000, 10000, 10000, 10000, 10000, 10000, 10000, 10000, 10000, 10000, 10000, 10000, 10000, 10000, 10000, 10000, 6000, 6000, 6000]) := by
  norm_num [runDays, daysOfMonth, lumpStep, List.range_succ]

theorem lumpMonth_6000 :
    runDays (lumpStep 28 4000) (daysOfMonth 30) 6000 =
      (2000, [6000, 6000, 6000, 6000, 6000, 6000, 6000, 6000, 6000, 6000, 6000, 6000, 6000, 6000, 6000, 6000, 6000, 6000, 6000, 6000, 6000, 6000, 6000, 6000, 6000, 6000, 6000, 2000, 2000, 2000]) := by
  norm_num [runDays, daysOfMonth, lumpStep, List.range_succ]

theorem lumpMonth_2000 :
    runDays (lumpStep 28 4000) (daysOfMonth 30) 2000 =
      (0, [2000, 2000, 2000, 2000, 2000, 2000, 2000, 2000, 2000, 2000, 2000, 2000, 2000, 2000, 2000, 2000, 2000, 2000, 2000, 2000, 2000, 2000, 2000, 2000, 2000, 2000, 2000, 0, 0, 0]) := by
  norm_num [runDays, daysOfMonth, lumpStep, List.range_succ]

theorem lumpMonth_0 :
    runDays (lumpStep 28 4000) (daysOfMonth 30) 0 =
      (0, [0, 0, 0, 0, 0, 0, 0, 0, 0, 0, 0, 0, 0, 0, 0, 0, 0, 0, 0, 0, 0, 0, 0, 0, 0, 0, 0, 0, 0, 0]) := by
  norm_num [runDays, daysOfMonth, lumpStep, List.range_succ]


theorem stag_scenario_sum :
    (runMonths (staggeredStep [7, 14, 21, 28] 1000) 30 12 30000).2.sum = 3421000 := by
  simp only [runMonths, stagMonth_30000, stagMonth_26000, stagMonth_22000, stagMonth_18000,
    stagMonth_14000, stagMonth_10000, stagMonth_6000, stagMonth_2000, stagMonth_0,
    List.sum_append]
  norm_num

theorem lump_scenario_sum :
    (runMonths (lumpStep 28 4000) 30 12 30000).2.sum = 3750000 := by
  simp only [runMonths, lumpMonth_30000, lumpMonth_26000, lumpMonth_22000, lumpMonth_18000,
    lumpMonth_14000, lumpMonth_10000, lumpMonth_6000, lumpMonth_2000, lumpMonth_0,
    List.sum_append]
  norm_num

theorem stag_scenario_avg :
    (simulate_payments_staggered 30000 (4/100) 12 30 [7, 14, 21, 28]
        1000).average_daily_balance = 85525 / 9 := by
  show npMean (runMonths (staggeredStep [7, 14, 21, 28] 1000) 30 12 30000).2 = 85525 / 9
  have hlen := runMonths_snd_length (staggeredStep [7, 14, 21, 28] 1000) 30 12 30000
  rw [npMean, stag_scenario_sum, hlen]
  norm_num

theorem lump_scenario_avg :
    (simulate_payments_lump_sum 30000 (4/100) 12 30 28
        4000).average_daily_balance = 31250 / 3 := by
  show npMean (runMonths (lumpStep 28 4000) 30 12 30000).2 = 31250 / 3
  have hlen := runMonths_snd_length (lumpStep 28 4000) 30 12 30000
  rw [npMean, lump_scenario_sum, hlen]
  norm_num

/-- Claim C6 as stated is false on the code: with the Scenario A/B parameters
the staggered average daily balance (85525/9, about 9503) is NOT strictly
greater than the lump-sum average daily balance (31250/3, about 10417). -/
theorem scenario_avg_not_gt :
    ¬ ((simulate_payments_staggered 30000 (4/100) 12 30 [7, 14, 21, 28]
          1000).average_daily_balance >
        (simulate_payments_lump_sum 30000 (4/100) 12 30 28
          4000).average_daily_balance) := by
  rw [stag_scenario_avg, lump_scenario_avg]
  norm_num

/-- Claim C6 amended: with the Scenario A/B parameters the staggered average
daily balance is strictly LESS than the lump-sum average daily balance (the
lump-sum strategy keeps money in the account longer each month). -/
theorem scenario_avg_lt :
    (simulate_payments_staggered 30000 (4/100) 12 30 [7, 14, 21, 28]
        1000).average_daily_balance <
      (simulate_payments_lump_sum 30000 (4/100) 12 30 28
        4000).average_daily_balance := by
  rw [stag_scenario_avg, lump_scenario_avg]
  norm_num

/-- Claim C7: in Scenario A the balance recorded on day 28 of the first month
(index 27 of the series) is 26000 = 30000 - 4 * 1000, and the series has
length 360. -/
theorem scenario_a_day28 :
    (simulate_payments_staggered 30000 (4/100) 12 30 [7, 14, 21, 28]
        1000).daily_balances.getD 27 0 = 26000 ∧
    (simulate_payments_staggered 30000 (4/100) 12 30 [7, 14, 21, 28]
        1000).daily_balances.length = 360 := by
  constructor
  · show (runMonths (staggeredStep [7, 14, 21, 28] 1000) 30 12 30000).2.getD 27 0 = 26000
    simp only [runMonths, stagMonth_30000, stagMonth_26000, stagMonth_22000, stagMonth_18000,
      stagMonth_14000, stagMonth_10000, stagMonth_6000, stagMonth_2000, stagMonth_0]
    rfl
  · simp [simulate_payments_staggered, runMonths_snd_length]

/-- Claim C8: with nonnegative initial balance and nonnegative payment amount,
if on some day the schedule triggers and the payment amount exceeds the
balance carried into that day, the balance recorded on that day is exactly 0
and every later entry of the series is 0 (no replenishment exists).  The day
label of global index i is entry i of the concatenated month-day list, and the
balance carried into day i is the entry recorded on day i-1 (the initial
balance when i = 0). -/
theorem overpayment_zeroes_rest :
    (∀ (initial_balance annual_interest_rate payment_amount : ℚ)
        (months days_per_month : ℕ) (payment_days : List ℤ) (s : List ℚ),
      s = (simulate_payments_staggered initial_balance annual_interest_rate
        months days_per_month payment_days payment_amount).daily_balances →
      0 ≤ initial_balance → 0 ≤ payment_amount →
      ∀ i, i < s.length →
        (monthsDays days_per_month months).getD i 0 ∈ payment_days →
        (if i = 0 then initial_balance else s.getD (i - 1) 0) < payment_amount →
        ∀ j, i ≤ j → j < s.length → s.getD j 0 = 0) ∧
    (∀ (initial_balance annual_interest_rate payment_amount : ℚ)
        (months days_per_month : ℕ) (payment_day : ℤ) (s : List ℚ),
      s = (simulate_payments_lump_sum initial_balance annual_interest_rate
        months days_per_month payment_day payment_amount).daily_balances →
      0 ≤ initial_balance → 0 ≤ payment_amount →
      ∀ i, i < s.length →
        (monthsDays days_per_month months).getD i 0 = payment_day →
        (if i = 0 then initial_balance else s.getD (i - 1) 0) < payment_amount →
        ∀ j, i ≤ j → j < s.length → s.getD j 0 = 0) := by
  constructor
  · intro init rate amt months dpm pd s hs _ hamt i hi htrig hlt j hij hj
    have hser : s = (runDays (staggeredStep pd amt) (monthsDays dpm months) init).2 := by
      rw [hs]
      show (runMonths (staggeredStep pd amt) dpm months init).2 = _
      rw [runMonths_eq_runDays]
    rw [hser] at hi hlt hj ⊢
    rw [runDays_snd_length] at hi hj
    have hzero : (runDays (staggeredStep pd amt) (monthsDays dpm months) init).2.getD i 0 = 0 := by
      rw [runDays_getD _ _ _ i hi]
      exact staggeredStep_clamp pd amt _ _ htrig hlt
    exact runDays_zero_from _ (fun d => staggeredStep_zero pd amt d hamt)
      _ init i j hij hj hzero
  · intro init rate amt months dpm pday s hs _ hamt i hi htrig hlt j hij hj
    have hser : s = (runDays (lumpStep pday amt) (monthsDays dpm months) init).2 := by
      rw [hs]
      show (runMonths (lumpStep pday amt) dpm months init).2 = _
      rw [runMonths_eq_runDays]
    rw [hser] at hi hlt hj ⊢
    rw [runDays_snd_length] at hi hj
    have hzero : (runDays (lumpStep pday amt) (monthsDays dpm months) init).2.getD i 0 = 0 := by
      rw [runDays_getD _ _ _ i hi]
      exact lumpStep_clamp pday amt _ _ htrig hlt
    exact runDays_zero_from _ (fun d => lumpStep_zero pday amt d hamt)
      _ init i j hij hj hzero

/-- Witness for C8: one month of three days, payment of 10 due on day 2
against a balance of 5: the entries for day 2 and day 3 are both 0. -/
theorem overpayment_zeroes_rest_witness :
    (simulate_payments_staggered 5 0 1 3 [2] 10).daily_balances.getD 2 0 = 0 ∧
    (simulate_payments_lump_sum 5 0 1 3 2 10).daily_balances.getD 2 0 = 0 := by
  constructor
  · refine overpayment_zeroes_rest.1 5 0 10 1 3 [2] _ rfl (by norm_num) (by norm_num)
      1 ?_ ?_ ?_ 2 (by norm_num) ?_
    · simp [simulate_payments_staggered, runMonths_snd_length]
    · norm_num [monthsDays, daysOfMonth, List.range_succ]
    · norm_num [simulate_payments_staggered, runMonths, runDays, daysOfMonth,
        staggeredStep, List.range_succ]
    · simp [simulate_payments_staggered, runMonths_snd_length]
  · refine overpayment_zeroes_rest.2 5 0 10 1 3 2 _ rfl (by norm_num) (by norm_num)
      1 ?_ ?_ ?_ 2 (by norm_num) ?_
    · simp [simulate_payments_lump_sum, runMonths_snd_length]
    · norm_num [monthsDays, daysOfMonth, List.range_succ]
    · norm_num [simulate_payments_lump_sum, runMonths, runDays, daysOfMonth,
        lumpStep, List.range_succ]
    · simp [simulate_payments_lump_sum, runMonths_snd_length]

end CreditCardSim
